import Mathlib

/-!
# A shallow embedding of the server-bot SSE relay (src/index.js)

The server keeps an in-memory object `connections`, keyed by username, whose
values are records `{ laptop: [], phone: [] }` of open SSE response handles.
`broadcastToDeviceType` fans one JSON event out to every handle in one bucket.
The HTTP handlers (`POST /login`, `GET /sse/laptop`, `GET /sse/phone`,
`POST /send-text`, `POST /send-image`) read the session identity, guard the
role, and mutate or read the registry.

Embedding choices, all taken from the source:
* A stream handle (an Express `res` object) is identified by a `Nat` id;
  JavaScript `!==` on response objects is reference identity, which the ids
  model exactly (each open connection gets a fresh object).
* The `connections` object is an association list with JavaScript object
  semantics: key lookup finds the first (unique, in any reachable state)
  match, assignment to an existing key rewrites that entry in place, and
  assignment to a missing key appends it in insertion order.
* `res.write` on an SSE response whose transport has already closed delivers
  nothing to the peer and raises nothing to the caller (Node streams report
  such failures asynchronously); successful deliveries are logged in
  `written`.  Transport-closed handles are the `closed` set.
* `used` records every handle id ever handed to an open-stream request; the
  runtime never reuses a response object, so open operations use fresh ids.
-/

namespace ServerBot

/-- The two device roles of src/index.js: the `laptop` and `phone` buckets of
a `connections[username]` record. -/
inductive DeviceType where
  | laptop
  | phone
deriving DecidableEq, Repr

/-- One `connections[username]` record: `{ laptop: [], phone: [] }`, each
bucket a list of open stream handle ids in push order. -/
structure ConnRecord where
  laptop : List Nat
  phone : List Nat
deriving DecidableEq, Repr

/-- Read one bucket of a record (`connections[username][deviceType]`). -/
def ConnRecord.bucket : ConnRecord → DeviceType → List Nat
  | r, .laptop => r.laptop
  | r, .phone => r.phone

/-- `connections[username][dt].push(h)`: append a handle to one bucket. -/
def ConnRecord.pushBucket : ConnRecord → DeviceType → Nat → ConnRecord
  | r, .laptop, h => { r with laptop := r.laptop ++ [h] }
  | r, .phone, h => { r with phone := r.phone ++ [h] }

/-- `connections[username][dt] = connections[username][dt].filter(c => c !== h)`:
the close-handler removal, filtering by handle identity. -/
def ConnRecord.filterBucket : ConnRecord → DeviceType → Nat → ConnRecord
  | r, .laptop, h => { r with laptop := r.laptop.filter (fun c => c != h) }
  | r, .phone, h => { r with phone := r.phone.filter (fun c => c != h) }

/-- All handles held by a record, both buckets. -/
def ConnRecord.handles (r : ConnRecord) : List Nat :=
  r.laptop ++ r.phone

/-- `connections[username]` key lookup: first matching entry, if any. -/
def lookupRecord : List (String × ConnRecord) → String → Option ConnRecord
  | [], _ => none
  | (k, r) :: rest, u => if k = u then some r else lookupRecord rest u

/-- Rewrite the value of the first entry with key `u` in place (JavaScript
assignment to an existing object key); no entry, no change. -/
def updateRecord : List (String × ConnRecord) → String → (ConnRecord → ConnRecord) →
    List (String × ConnRecord)
  | [], _, _ => []
  | (k, r) :: rest, u, f =>
      if k = u then (k, f r) :: rest else (k, r) :: updateRecord rest u f

/-- The state of the server process: the `connections` registry, the set of
transport-closed handles, the log of delivered SSE writes `(handle, line)`,
and every handle id ever allocated to an open-stream request. -/
structure SSEState where
  connections : List (String × ConnRecord)
  closed : List Nat
  written : List (Nat × String)
  used : List Nat
deriving DecidableEq, Repr

/-- The state of a freshly started server process: `const connections = {}`,
nothing closed, nothing written, no handle allocated. -/
def initialState : SSEState :=
  ⟨[], [], [], []⟩

/-- The event objects the send endpoints build: a `type` tag and a `data`
string, where `none` models a JavaScript `undefined` field. -/
structure EventData where
  type : String
  data : Option String
deriving DecidableEq, Repr

/-- JSON string escaping as `JSON.stringify` performs it on the payload
characters that can occur here (quote, backslash, and the common control
characters; other characters pass through). -/
def jsonEscapeChar (c : Char) : String :=
  if c = '"' then "\\\""
  else if c = '\\' then "\\\\"
  else if c = '\n' then "\\n"
  else if c = '\r' then "\\r"
  else if c = '\t' then "\\t"
  else String.singleton c

/-- A JSON string literal for `s`. -/
def jsonQuote (s : String) : String :=
  "\"" ++ String.join (s.toList.map jsonEscapeChar) ++ "\""

/-- `JSON.stringify(eventData)` for the two-field event objects of the send
endpoints: keys in insertion order (`type` then `data`), and a field holding
`undefined` is omitted entirely. -/
def jsonStringify (e : EventData) : String :=
  match e.data with
  | none => "\x7b\"type\":" ++ jsonQuote e.type ++ "\x7d"
  | some d => "\x7b\"type\":" ++ jsonQuote e.type ++ ",\"data\":" ++ jsonQuote d ++ "\x7d"

/-- The SSE frame written per recipient:
`res.write("data: " + JSON.stringify(eventData) + "\n\n")`. -/
def sseMessage (e : EventData) : String :=
  "data: " ++ jsonStringify e ++ "\n\n"

/-- One `res.write(line)` against handle `h`: a live handle receives the
line (logged in `written`); a transport-closed handle receives nothing and
the failure surfaces nowhere (Node reports it asynchronously, off this code
path), so the state is returned unchanged. -/
def writeToHandle (st : SSEState) (h : Nat) (line : String) : SSEState :=
  if h ∈ st.closed then st
  else { st with written := st.written ++ [(h, line)] }

/-- `broadcastToDeviceType(username, deviceType, eventData)` of src/index.js:
return early when the username has no record, else write the serialized
event to every handle of the requested bucket. -/
def broadcastToDeviceType (st : SSEState) (username : String) (deviceType : DeviceType)
    (eventData : EventData) : SSEState :=
  match lookupRecord st.connections username with
  | none => st
  | some r =>
      (r.bucket deviceType).foldl (fun s h => writeToHandle s h (sseMessage eventData)) st

/-- The registry read the spec calls `streamsFor`: the live bucket for
`(username, deviceType)`, empty when the username has no record. -/
def streamsFor (st : SSEState) (username : String) (deviceType : DeviceType) : List Nat :=
  match lookupRecord st.connections username with
  | none => []
  | some r => r.bucket deviceType

/-- The registry effect of a successful `POST /login` as `username`: create
the `{ laptop: [], phone: [] }` record when absent, touch nothing when
present.  (Credential checking and session issuance are external.) -/
def loginInit (st : SSEState) (username : String) : SSEState :=
  match lookupRecord st.connections username with
  | none => { st with connections := st.connections ++ [(username, ⟨[], []⟩)] }
  | some _ => st

/-- A resolved session as the handlers read it: `req.session.username` and
`req.session.deviceType` (a raw string stored at login). -/
structure Session where
  username : String
  deviceType : String
deriving DecidableEq, Repr

/-- The handler outcomes visible to a client: 403, 400 with a message, a
JSON 200, a successfully opened event stream, or an uncaught handler
exception surfaced by Express as a generic 500. -/
inductive Response where
  | forbidden
  | badRequest (message : String)
  | okJson (body : String)
  | streamOpened
  | serverError
deriving DecidableEq, Repr

/-- `GET /sse/laptop`: 403 unless the session carries a username and the
`laptop` role; then `connections[username].laptop.push(res)` — which throws
(a generic 500) when `connections[username]` is absent, since the handler
never creates the record. -/
def sseLaptop (st : SSEState) (sess : Option Session) (h : Nat) : Response × SSEState :=
  match sess with
  | none => (.forbidden, st)
  | some s =>
      if s.username = "" ∨ s.deviceType ≠ "laptop" then (.forbidden, st)
      else
        match lookupRecord st.connections s.username with
        | none => (.serverError, st)
        | some _ =>
            (.streamOpened,
              { st with connections :=
                  updateRecord st.connections s.username (fun r => r.pushBucket .laptop h) })

/-- `GET /sse/phone`: the phone-side twin of `sseLaptop`. -/
def ssePhone (st : SSEState) (sess : Option Session) (h : Nat) : Response × SSEState :=
  match sess with
  | none => (.forbidden, st)
  | some s =>
      if s.username = "" ∨ s.deviceType ≠ "phone" then (.forbidden, st)
      else
        match lookupRecord st.connections s.username with
        | none => (.serverError, st)
        | some _ =>
            (.streamOpened,
              { st with connections :=
                  updateRecord st.connections s.username (fun r => r.pushBucket .phone h) })

/-- The `req.on("close")` callback registered by `GET /sse/laptop`:
`connections[username].laptop = connections[username].laptop.filter(c => c !== res)`. -/
def closeLaptop (st : SSEState) (username : String) (h : Nat) : SSEState :=
  { st with connections :=
      updateRecord st.connections username (fun r => r.filterBucket .laptop h) }

/-- The `req.on("close")` callback registered by `GET /sse/phone`. -/
def closePhone (st : SSEState) (username : String) (h : Nat) : SSEState :=
  { st with connections :=
      updateRecord st.connections username (fun r => r.filterBucket .phone h) }

/-- A transport-level disconnect of handle `h`: the handle becomes closed
and the close callback registered at open time runs. -/
def closeStream (st : SSEState) (username : String) (dt : DeviceType) (h : Nat) : SSEState :=
  match dt with
  | .laptop => closeLaptop { st with closed := h :: st.closed } username h
  | .phone => closePhone { st with closed := h :: st.closed } username h

/-- `POST /send-text` request body: `text` may be absent (`undefined`). -/
structure SendTextBody where
  text : Option String
deriving DecidableEq, Repr

/-- `POST /send-image` request body: `base64Image` may be absent. -/
structure SendImageBody where
  base64Image : Option String
deriving DecidableEq, Repr

/-- `POST /send-text`: 403 unless a phone-role session; then broadcast
`{ type: "text", data: text }` to the laptop bucket — the `text` field is
never validated — and answer `{ success: true }`. -/
def sendText (st : SSEState) (sess : Option Session) (body : SendTextBody) :
    Response × SSEState :=
  match sess with
  | none => (.forbidden, st)
  | some s =>
      if s.username = "" ∨ s.deviceType ≠ "phone" then (.forbidden, st)
      else
        (.okJson "\x7b\"success\":true\x7d",
          broadcastToDeviceType st s.username .laptop ⟨"text", body.text⟩)

/-- `POST /send-image`: 403 unless a laptop-role session; 400 when
`base64Image` is falsy (absent or empty); else build the data URI
`"data:image/png;base64," + base64Image`, broadcast
`{ type: "image", data: dataUri }` to the phone bucket, and answer success. -/
def sendImage (st : SSEState) (sess : Option Session) (body : SendImageBody) :
    Response × SSEState :=
  match sess with
  | none => (.forbidden, st)
  | some s =>
      if s.username = "" ∨ s.deviceType ≠ "laptop" then (.forbidden, st)
      else
        match body.base64Image with
        | none => (.badRequest "No base64Image in the request body", st)
        | some img =>
            if img = "" then (.badRequest "No base64Image in the request body", st)
            else
              (.okJson "\x7b\"success\":true,\"message\":\"Image sent successfully\"\x7d",
                broadcastToDeviceType st s.username .phone
                  ⟨"image", some ("data:image/png;base64," ++ img)⟩)

/-- The registry-touching operations a client can drive: a successful login,
an authenticated open of either stream (carrying the fresh response handle
the runtime allocated), and a transport disconnect of either stream. -/
inductive Op where
  | login (username : String)
  | openLaptop (username : String) (handle : Nat)
  | openPhone (username : String) (handle : Nat)
  | closeL (username : String) (handle : Nat)
  | closeP (username : String) (handle : Nat)
deriving DecidableEq, Repr

/-- Run one operation.  Open operations consume a runtime-allocated response
object: an id already used stands for no fresh allocation, so the operation
is a stutter; a fresh id is recorded in `used`. -/
def execOp (st : SSEState) : Op → SSEState
  | .login u => loginInit st u
  | .openLaptop u h =>
      if h ∈ st.used then st
      else { (sseLaptop st (some ⟨u, "laptop"⟩) h).2 with used := h :: st.used }
  | .openPhone u h =>
      if h ∈ st.used then st
      else { (ssePhone st (some ⟨u, "phone"⟩) h).2 with used := h :: st.used }
  | .closeL u h => closeStream st u .laptop h
  | .closeP u h => closeStream st u .phone h

/-- Run a whole operation sequence from process start. -/
def execOps (ops : List Op) : SSEState :=
  ops.foldl execOp initialState

/-- Every handle occurring in any bucket of any record, with multiplicity. -/
def registeredHandles : List (String × ConnRecord) → List Nat
  | [] => []
  | (_, r) :: rest => r.handles ++ registeredHandles rest

/-- The registry invariant: no handle is registered twice anywhere, and every
registered handle was allocated by the runtime. -/
def RegistryInv (st : SSEState) : Prop :=
  (registeredHandles st.connections).Nodup ∧
    ∀ h ∈ registeredHandles st.connections, h ∈ st.used

/-- The C5 scenario, built by the handlers themselves: alice logs in, opens
laptop stream H1 = 1, then phone streams H2 = 2 and H3 = 3. -/
def c5Ready : SSEState :=
  (ssePhone ((ssePhone ((sseLaptop (loginInit initialState "alice")
      (some ⟨"alice", "laptop"⟩) 1).2)
    (some ⟨"alice", "phone"⟩) 2).2)
  (some ⟨"alice", "phone"⟩) 3).2

/-- First send-as-phone of C5. -/
def c5Send1 : Response × SSEState :=
  sendText c5Ready (some ⟨"alice", "phone"⟩) ⟨some "hi"⟩

/-- H1 disconnects after the first send. -/
def c5Closed : SSEState :=
  closeStream c5Send1.2 "alice" .laptop 1

/-- Second, identical send-as-phone of C5. -/
def c5Send2 : Response × SSEState :=
  sendText c5Closed (some ⟨"alice", "phone"⟩) ⟨some "hi"⟩

/-! ## Lemmas about the write loop -/

theorem writeToHandle_connections (st : SSEState) (h : Nat) (line : String) :
    (writeToHandle st h line).connections = st.connections := by
  unfold writeToHandle; split <;> rfl

theorem writeToHandle_closed (st : SSEState) (h : Nat) (line : String) :
    (writeToHandle st h line).closed = st.closed := by
  unfold writeToHandle; split <;> rfl

theorem writeToHandle_used (st : SSEState) (h : Nat) (line : String) :
    (writeToHandle st h line).used = st.used := by
  unfold writeToHandle; split <;> rfl

theorem writeToHandle_written_superset (st : SSEState) (h : Nat) (line : String)
    (pr : Nat × String) (hpr : pr ∈ st.written) :
    pr ∈ (writeToHandle st h line).written := by
  unfold writeToHandle; split
  · exact hpr
  · exact List.mem_append_left _ hpr

theorem writeToHandle_written_sub (st : SSEState) (h : Nat) (line : String)
    (pr : Nat × String) (hpr : pr ∈ (writeToHandle st h line).written) :
    pr ∈ st.written ∨ (pr = (h, line) ∧ h ∉ st.closed) := by
  unfold writeToHandle at hpr; split at hpr
  · exact Or.inl hpr
  · rcases List.mem_append.mp hpr with hl | hr
    · exact Or.inl hl
    · rename_i hcl
      exact Or.inr ⟨List.mem_singleton.mp hr, hcl⟩

/-- The body of the `forEach` in `broadcastToDeviceType`, run over a list of
target handles. -/
theorem foldWrite_connections (targets : List Nat) (line : String) : ∀ st : SSEState,
    (targets.foldl (fun s h => writeToHandle s h line) st).connections = st.connections := by
  induction targets with
  | nil => intro st; rfl
  | cons t ts ih =>
      intro st
      simpa [writeToHandle_connections] using ih (writeToHandle st t line)

theorem foldWrite_closed (targets : List Nat) (line : String) : ∀ st : SSEState,
    (targets.foldl (fun s h => writeToHandle s h line) st).closed = st.closed := by
  induction targets with
  | nil => intro st; rfl
  | cons t ts ih =>
      intro st
      simpa [writeToHandle_closed] using ih (writeToHandle st t line)

theorem foldWrite_used (targets : List Nat) (line : String) : ∀ st : SSEState,
    (targets.foldl (fun s h => writeToHandle s h line) st).used = st.used := by
  induction targets with
  | nil => intro st; rfl
  | cons t ts ih =>
      intro st
      simpa [writeToHandle_used] using ih (writeToHandle st t line)

theorem foldWrite_written_superset (targets : List Nat) (line : String) :
    ∀ (st : SSEState) (pr : Nat × String), pr ∈ st.written →
      pr ∈ (targets.foldl (fun s h => writeToHandle s h line) st).written := by
  induction targets with
  | nil => intro st pr hpr; exact hpr
  | cons t ts ih =>
      intro st pr hpr
      exact ih (writeToHandle st t line) pr (writeToHandle_written_superset st t line pr hpr)

theorem foldWrite_written_of_mem (targets : List Nat) (line : String) :
    ∀ (st : SSEState) (h : Nat), h ∈ targets → h ∉ st.closed →
      (h, line) ∈ (targets.foldl (fun s h => writeToHandle s h line) st).written := by
  induction targets with
  | nil => intro st h hmem; cases hmem
  | cons t ts ih =>
      intro st h hmem hopen
      rw [List.foldl_cons]
      rcases List.mem_cons.mp hmem with rfl | hts
      · apply foldWrite_written_superset
        unfold writeToHandle
        split
        · exact absurd (by assumption) hopen
        · exact List.mem_append_right _ (List.mem_singleton.mpr rfl)
      · exact ih (writeToHandle st t line) h hts
          (by rw [writeToHandle_closed]; exact hopen)

theorem foldWrite_written_sub (targets : List Nat) (line : String) :
    ∀ (st : SSEState) (pr : Nat × String),
      pr ∈ (targets.foldl (fun s h => writeToHandle s h line) st).written →
      pr ∈ st.written ∨ (pr.1 ∈ targets ∧ pr.2 = line ∧ pr.1 ∉ st.closed) := by
  induction targets with
  | nil => intro st pr hpr; exact Or.inl hpr
  | cons t ts ih =>
      intro st pr hpr
      rcases ih (writeToHandle st t line) pr hpr with hin | ⟨hmem, hline, hopen⟩
      · rcases writeToHandle_written_sub st t line pr hin with hin2 | ⟨rfl, hcl⟩
        · exact Or.inl hin2
        · exact Or.inr ⟨List.mem_cons_self _ _, rfl, hcl⟩
      · rw [writeToHandle_closed] at hopen
        exact Or.inr ⟨List.mem_cons_of_mem _ hmem, hline, hopen⟩

/-! ## Lemmas about broadcastToDeviceType -/

theorem broadcast_connections (st : SSEState) (u : String) (dt : DeviceType) (e : EventData) :
    (broadcastToDeviceType st u dt e).connections = st.connections := by
  unfold broadcastToDeviceType
  cases lookupRecord st.connections u with
  | none => rfl
  | some r => exact foldWrite_connections _ _ st

theorem broadcast_closed (st : SSEState) (u : String) (dt : DeviceType) (e : EventData) :
    (broadcastToDeviceType st u dt e).closed = st.closed := by
  unfold broadcastToDeviceType
  cases lookupRecord st.connections u with
  | none => rfl
  | some r => exact foldWrite_closed _ _ st

theorem broadcast_streamsFor (st : SSEState) (u u' : String) (dt dt' : DeviceType)
    (e : EventData) :
    streamsFor (broadcastToDeviceType st u dt e) u' dt' = streamsFor st u' dt' := by
  unfold streamsFor
  rw [broadcast_connections]

theorem broadcast_written_of_mem (st : SSEState) (u : String) (dt : DeviceType)
    (e : EventData) (h : Nat) (hmem : h ∈ streamsFor st u dt) (hopen : h ∉ st.closed) :
    (h, sseMessage e) ∈ (broadcastToDeviceType st u dt e).written := by
  unfold broadcastToDeviceType
  unfold streamsFor at hmem
  cases hlk : lookupRecord st.connections u with
  | none => rw [hlk] at hmem; cases hmem
  | some r =>
      rw [hlk] at hmem
      exact foldWrite_written_of_mem _ _ st h hmem hopen

theorem broadcast_written_superset (st : SSEState) (u : String) (dt : DeviceType)
    (e : EventData) (pr : Nat × String) (hpr : pr ∈ st.written) :
    pr ∈ (broadcastToDeviceType st u dt e).written := by
  unfold broadcastToDeviceType
  cases lookupRecord st.connections u with
  | none => exact hpr
  | some r => exact foldWrite_written_superset _ _ st pr hpr

theorem broadcast_written_sub (st : SSEState) (u : String) (dt : DeviceType)
    (e : EventData) (pr : Nat × String)
    (hpr : pr ∈ (broadcastToDeviceType st u dt e).written) :
    pr ∈ st.written ∨ (pr.1 ∈ streamsFor st u dt ∧ pr.2 = sseMessage e ∧ pr.1 ∉ st.closed) := by
  unfold broadcastToDeviceType at hpr
  unfold streamsFor
  cases hlk : lookupRecord st.connections u with
  | none => rw [hlk] at hpr; exact Or.inl hpr
  | some r =>
      rw [hlk] at hpr
      exact foldWrite_written_sub _ _ st pr hpr

/-! ## Association-list lemmas for the connections object -/

theorem updateRecord_of_lookup_none (l : List (String × ConnRecord)) (u : String)
    (f : ConnRecord → ConnRecord) (hl : lookupRecord l u = none) :
    updateRecord l u f = l := by
  induction l with
  | nil => rfl
  | cons p rest ih =>
      obtain ⟨k, r⟩ := p
      unfold lookupRecord at hl
      unfold updateRecord
      by_cases hk : k = u
      · rw [if_pos hk] at hl; cases hl
      · rw [if_neg hk] at hl
        rw [if_neg hk, ih hl]

theorem lookupRecord_updateRecord_self (l : List (String × ConnRecord)) (u : String)
    (f : ConnRecord → ConnRecord) :
    lookupRecord (updateRecord l u f) u = (lookupRecord l u).map f := by
  induction l with
  | nil => rfl
  | cons p rest ih =>
      obtain ⟨k, r⟩ := p
      unfold updateRecord
      by_cases hk : k = u
      · rw [if_pos hk]
        unfold lookupRecord
        rw [if_pos hk, if_pos hk]
        rfl
      · rw [if_neg hk]
        unfold lookupRecord
        rw [if_neg hk, if_neg hk]
        exact ih

theorem lookupRecord_updateRecord_ne (l : List (String × ConnRecord)) (u u' : String)
    (f : ConnRecord → ConnRecord) (hne : u' ≠ u) :
    lookupRecord (updateRecord l u f) u' = lookupRecord l u' := by
  induction l with
  | nil => rfl
  | cons p rest ih =>
      obtain ⟨k, r⟩ := p
      unfold updateRecord
      by_cases hk : k = u
      · rw [if_pos hk]
        unfold lookupRecord
        rw [if_neg (by rw [hk]; exact fun hh => hne hh.symm),
          if_neg (by rw [hk]; exact fun hh => hne hh.symm)]
      · rw [if_neg hk]
        unfold lookupRecord
        by_cases hk' : k = u'
        · rw [if_pos hk', if_pos hk']
        · rw [if_neg hk', if_neg hk']
          exact ih

theorem updateRecord_updateRecord (l : List (String × ConnRecord)) (u : String)
    (f : ConnRecord → ConnRecord) (hf : ∀ r, f (f r) = f r) :
    updateRecord (updateRecord l u f) u f = updateRecord l u f := by
  induction l with
  | nil => rfl
  | cons p rest ih =>
      obtain ⟨k, r⟩ := p
      by_cases hk : k = u
      · simp only [updateRecord, if_pos hk, hf]
      · simp only [updateRecord, if_neg hk, ih]

theorem updateRecord_congr_id (l : List (String × ConnRecord)) (u : String)
    (f : ConnRecord → ConnRecord) (r : ConnRecord) (hl : lookupRecord l u = some r)
    (hf : f r = r) :
    updateRecord l u f = l := by
  induction l with
  | nil => cases hl
  | cons p rest ih =>
      obtain ⟨k, r₀⟩ := p
      unfold lookupRecord at hl
      unfold updateRecord
      by_cases hk : k = u
      · rw [if_pos hk] at hl
        rw [if_pos hk]
        cases hl
        rw [hf]
      · rw [if_neg hk] at hl
        rw [if_neg hk, ih hl]

theorem lookupRecord_append_of_none (l l₂ : List (String × ConnRecord)) (u : String)
    (hl : lookupRecord l u = none) :
    lookupRecord (l ++ l₂) u = lookupRecord l₂ u := by
  induction l with
  | nil => rfl
  | cons p rest ih =>
      obtain ⟨k, r⟩ := p
      by_cases hk : k = u
      · simp only [lookupRecord, if_pos hk] at hl
        cases hl
      · simp only [lookupRecord, if_neg hk] at hl
        simp only [List.cons_append, lookupRecord, if_neg hk]
        exact ih hl

/-! ## Lemmas about registered handles -/

theorem handles_pushBucket_perm (r : ConnRecord) (dt : DeviceType) (h : Nat) :
    List.Perm (r.pushBucket dt h).handles (h :: r.handles) := by
  cases dt with
  | laptop =>
      show List.Perm ((r.laptop ++ [h]) ++ r.phone) (h :: (r.laptop ++ r.phone))
      rw [List.append_assoc, List.singleton_append]
      exact List.perm_middle
  | phone =>
      show List.Perm (r.laptop ++ (r.phone ++ [h])) (h :: (r.laptop ++ r.phone))
      exact List.Perm.trans
        (List.Perm.append_left _ (List.perm_append_singleton h r.phone))
        List.perm_middle

theorem handles_filterBucket_sublist (r : ConnRecord) (dt : DeviceType) (h : Nat) :
    List.Sublist (r.filterBucket dt h).handles r.handles := by
  cases dt with
  | laptop =>
      show List.Sublist ((r.laptop.filter fun c => c != h) ++ r.phone) (r.laptop ++ r.phone)
      exact List.Sublist.append (List.filter_sublist _) (List.Sublist.refl _)
  | phone =>
      show List.Sublist (r.laptop ++ (r.phone.filter fun c => c != h)) (r.laptop ++ r.phone)
      exact List.Sublist.append (List.Sublist.refl _) (List.filter_sublist _)

theorem registeredHandles_append (a b : List (String × ConnRecord)) :
    registeredHandles (a ++ b) = registeredHandles a ++ registeredHandles b := by
  induction a with
  | nil => rfl
  | cons p rest ih =>
      obtain ⟨k, r⟩ := p
      simp only [List.cons_append, registeredHandles, List.append_eq, ih, List.append_assoc]

theorem registeredHandles_update_push (l : List (String × ConnRecord)) (u : String)
    (dt : DeviceType) (h : Nat) (r : ConnRecord) (hl : lookupRecord l u = some r) :
    List.Perm (registeredHandles (updateRecord l u (fun x => x.pushBucket dt h)))
      (h :: registeredHandles l) := by
  induction l with
  | nil => cases hl
  | cons p rest ih =>
      obtain ⟨k, r₀⟩ := p
      by_cases hk : k = u
      · simp only [updateRecord, if_pos hk, registeredHandles]
        exact List.Perm.append_right _ (handles_pushBucket_perm r₀ dt h)
      · simp only [lookupRecord, if_neg hk] at hl
        simp only [updateRecord, if_neg hk, registeredHandles]
        exact List.Perm.trans (List.Perm.append_left _ (ih hl)) List.perm_middle

theorem registeredHandles_update_filter (l : List (String × ConnRecord)) (u : String)
    (dt : DeviceType) (h : Nat) :
    List.Sublist (registeredHandles (updateRecord l u (fun x => x.filterBucket dt h)))
      (registeredHandles l) := by
  induction l with
  | nil => exact List.Sublist.refl _
  | cons p rest ih =>
      obtain ⟨k, r₀⟩ := p
      by_cases hk : k = u
      · simp only [updateRecord, if_pos hk, registeredHandles]
        exact List.Sublist.append (handles_filterBucket_sublist r₀ dt h) (List.Sublist.refl _)
      · simp only [updateRecord, if_neg hk, registeredHandles]
        exact List.Sublist.append (List.Sublist.refl _) ih

/-! ## Preservation of the registry invariant -/

theorem registryInv_initial : RegistryInv initialState :=
  ⟨List.nodup_nil, fun h hh => absurd hh (List.not_mem_nil h)⟩

theorem registryInv_used_grow (st : SSEState) (conn : List (String × ConnRecord)) (h : Nat)
    (hc : conn = st.connections) (hinv : RegistryInv st) :
    RegistryInv { st with connections := conn, used := h :: st.used } := by
  obtain ⟨hnd, hcl⟩ := hinv
  subst hc
  exact ⟨hnd, fun x hx => List.mem_cons_of_mem _ (hcl x hx)⟩

theorem registryInv_loginInit (st : SSEState) (u : String) (hinv : RegistryInv st) :
    RegistryInv (loginInit st u) := by
  obtain ⟨hnd, hcl⟩ := hinv
  unfold loginInit
  cases hlk : lookupRecord st.connections u with
  | some r => exact ⟨hnd, hcl⟩
  | none =>
      constructor
      · show (registeredHandles (st.connections ++ [(u, ⟨[], []⟩)])).Nodup
        rw [registeredHandles_append]
        simpa [registeredHandles, ConnRecord.handles] using hnd
      · intro x hx
        rw [registeredHandles_append] at hx
        apply hcl
        simpa [registeredHandles, ConnRecord.handles] using hx

theorem registryInv_register (st : SSEState) (u : String) (dt : DeviceType) (h : Nat)
    (hinv : RegistryInv st) (hfresh : h ∉ st.used) :
    RegistryInv { st with
      connections := updateRecord st.connections u (fun r => r.pushBucket dt h),
      used := h :: st.used } := by
  obtain ⟨hnd, hcl⟩ := hinv
  cases hlk : lookupRecord st.connections u with
  | none =>
      rw [updateRecord_of_lookup_none st.connections u _ hlk]
      exact ⟨hnd, fun x hx => List.mem_cons_of_mem _ (hcl x hx)⟩
  | some r =>
      have hperm := registeredHandles_update_push st.connections u dt h r hlk
      constructor
      · rw [hperm.nodup_iff, List.nodup_cons]
        exact ⟨fun hmem => hfresh (hcl h hmem), hnd⟩
      · intro x hx
        rcases List.mem_cons.mp (hperm.mem_iff.mp hx) with rfl | hx2
        · exact List.mem_cons_self _ _
        · exact List.mem_cons_of_mem _ (hcl x hx2)

theorem registryInv_closeStream (st : SSEState) (u : String) (dt : DeviceType) (h : Nat)
    (hinv : RegistryInv st) :
    RegistryInv (closeStream st u dt h) := by
  obtain ⟨hnd, hcl⟩ := hinv
  cases dt with
  | laptop =>
      exact ⟨(registeredHandles_update_filter st.connections u .laptop h).nodup hnd,
        fun x hx =>
          hcl x ((registeredHandles_update_filter st.connections u .laptop h).subset hx)⟩
  | phone =>
      exact ⟨(registeredHandles_update_filter st.connections u .phone h).nodup hnd,
        fun x hx =>
          hcl x ((registeredHandles_update_filter st.connections u .phone h).subset hx)⟩

/-- What `GET /sse/laptop` can do to the state under an authenticated laptop
session: nothing (rejected or crashed), or push the handle into the user's
laptop bucket. -/
theorem sseLaptop_snd (st : SSEState) (u : String) (h : Nat) :
    (sseLaptop st (some ⟨u, "laptop"⟩) h).2 = st ∨
      (sseLaptop st (some ⟨u, "laptop"⟩) h).2 =
        { st with connections :=
            updateRecord st.connections u (fun r => r.pushBucket .laptop h) } := by
  simp only [sseLaptop]
  by_cases hu : u = ""
  · rw [if_pos (Or.inl hu)]
    exact Or.inl rfl
  · rw [if_neg (by simp [hu])]
    cases hlk : lookupRecord st.connections u with
    | none => exact Or.inl rfl
    | some r => exact Or.inr rfl

/-- The phone-side twin of `sseLaptop_snd`. -/
theorem ssePhone_snd (st : SSEState) (u : String) (h : Nat) :
    (ssePhone st (some ⟨u, "phone"⟩) h).2 = st ∨
      (ssePhone st (some ⟨u, "phone"⟩) h).2 =
        { st with connections :=
            updateRecord st.connections u (fun r => r.pushBucket .phone h) } := by
  simp only [ssePhone]
  by_cases hu : u = ""
  · rw [if_pos (Or.inl hu)]
    exact Or.inl rfl
  · rw [if_neg (by simp [hu])]
    cases hlk : lookupRecord st.connections u with
    | none => exact Or.inl rfl
    | some r => exact Or.inr rfl

theorem registryInv_execOp (st : SSEState) (op : Op) (hinv : RegistryInv st) :
    RegistryInv (execOp st op) := by
  cases op with
  | login u => exact registryInv_loginInit st u hinv
  | openLaptop u h =>
      simp only [execOp]
      by_cases hu : h ∈ st.used
      · rw [if_pos hu]; exact hinv
      · rw [if_neg hu]
        rcases sseLaptop_snd st u h with heq | heq
        · rw [heq]
          exact registryInv_used_grow st st.connections h rfl hinv
        · rw [heq]
          exact registryInv_register st u .laptop h hinv hu
  | openPhone u h =>
      simp only [execOp]
      by_cases hu : h ∈ st.used
      · rw [if_pos hu]; exact hinv
      · rw [if_neg hu]
        rcases ssePhone_snd st u h with heq | heq
        · rw [heq]
          exact registryInv_used_grow st st.connections h rfl hinv
        · rw [heq]
          exact registryInv_register st u .phone h hinv hu
  | closeL u h => exact registryInv_closeStream st u .laptop h hinv
  | closeP u h => exact registryInv_closeStream st u .phone h hinv

theorem registryInv_foldl (ops : List Op) : ∀ st : SSEState, RegistryInv st →
    RegistryInv (ops.foldl execOp st) := by
  induction ops with
  | nil => intro st hinv; exact hinv
  | cons op rest ih =>
      intro st hinv
      rw [List.foldl_cons]
      exact ih (execOp st op) (registryInv_execOp st op hinv)

theorem registryInv_execOps (ops : List Op) : RegistryInv (execOps ops) :=
  registryInv_foldl ops initialState registryInv_initial

/-! ## More helpers: streamsFor after an update, and the send responses -/

theorem streamsFor_mk (c : List (String × ConnRecord)) (cl : List Nat)
    (w : List (Nat × String)) (us : List Nat) (u : String) (dt : DeviceType) :
    streamsFor ⟨c, cl, w, us⟩ u dt =
      match lookupRecord c u with
      | none => []
      | some r => r.bucket dt := rfl

theorem bucket_filterBucket_self (r : ConnRecord) (dt : DeviceType) (h : Nat) :
    (r.filterBucket dt h).bucket dt = (r.bucket dt).filter (fun c => c != h) := by
  cases dt <;> rfl

theorem filterBucket_eq_self (r : ConnRecord) (dt : DeviceType) (h : Nat)
    (habs : h ∉ r.bucket dt) : r.filterBucket dt h = r := by
  have hfil : (r.bucket dt).filter (fun c => c != h) = r.bucket dt :=
    List.filter_eq_self.mpr fun a ha =>
      bne_iff_ne.mpr fun hah => habs (hah ▸ ha)
  cases dt with
  | laptop =>
      show { r with laptop := r.laptop.filter fun c => c != h } = r
      rw [show (r.laptop.filter fun c => c != h) = r.laptop from hfil]
  | phone =>
      show { r with phone := r.phone.filter fun c => c != h } = r
      rw [show (r.phone.filter fun c => c != h) = r.phone from hfil]

theorem streamsFor_update_filter_self (st : SSEState) (u : String) (dt : DeviceType)
    (h : Nat) :
    h ∉ streamsFor
        { st with connections := updateRecord st.connections u fun r => r.filterBucket dt h }
        u dt := by
  rw [streamsFor_mk, lookupRecord_updateRecord_self]
  cases hlk : lookupRecord st.connections u with
  | none => exact List.not_mem_nil h
  | some r =>
      show h ∉ (r.filterBucket dt h).bucket dt
      rw [bucket_filterBucket_self]
      intro hmem
      have := (List.mem_filter.mp hmem).2
      rw [bne_self_eq_false] at this
      cases this

theorem streamsFor_update_filter_other (st : SSEState) (u : String) (dt : DeviceType)
    (h h2 : Nat) (hne : h2 ≠ h) :
    h2 ∈ streamsFor
        { st with connections := updateRecord st.connections u fun r => r.filterBucket dt h }
        u dt ↔ h2 ∈ streamsFor st u dt := by
  rw [streamsFor_mk, lookupRecord_updateRecord_self]
  unfold streamsFor
  cases hlk : lookupRecord st.connections u with
  | none => exact Iff.rfl
  | some r =>
      show h2 ∈ (r.filterBucket dt h).bucket dt ↔ h2 ∈ r.bucket dt
      rw [bucket_filterBucket_self]
      constructor
      · exact fun hmem => (List.mem_filter.mp hmem).1
      · exact fun hmem => List.mem_filter.mpr ⟨hmem, bne_iff_ne.mpr hne⟩

theorem update_filter_of_absent (st : SSEState) (u : String) (dt : DeviceType) (h : Nat)
    (habs : h ∉ streamsFor st u dt) :
    { st with connections := updateRecord st.connections u fun r => r.filterBucket dt h } =
      st := by
  unfold streamsFor at habs
  cases hlk : lookupRecord st.connections u with
  | none =>
      rw [updateRecord_of_lookup_none st.connections u _ hlk]
  | some r =>
      rw [hlk] at habs
      rw [updateRecord_congr_id st.connections u _ r hlk (filterBucket_eq_self r dt h habs)]

theorem updateRecord_filter_idem (l : List (String × ConnRecord)) (u : String)
    (dt : DeviceType) (h : Nat) :
    updateRecord (updateRecord l u fun r => r.filterBucket dt h) u
        (fun r => r.filterBucket dt h) =
      updateRecord l u fun r => r.filterBucket dt h := by
  apply updateRecord_updateRecord
  intro r
  have hfil : ∀ b : List Nat,
      (b.filter fun c => c != h).filter (fun c => c != h) = b.filter fun c => c != h :=
    fun b => List.filter_eq_self.mpr fun a ha => (List.mem_filter.mp ha).2
  cases dt with
  | laptop =>
      show ({ r with laptop := r.laptop.filter fun c => c != h } :
          ConnRecord).filterBucket .laptop h = _
      show { r with laptop := (r.laptop.filter fun c => c != h).filter fun c => c != h } = _
      rw [hfil]
      rfl
  | phone =>
      show ({ r with phone := r.phone.filter fun c => c != h } :
          ConnRecord).filterBucket .phone h = _
      show { r with phone := (r.phone.filter fun c => c != h).filter fun c => c != h } = _
      rw [hfil]
      rfl

theorem streamsFor_closeStream_self (st : SSEState) (u : String) (dt : DeviceType)
    (h : Nat) : h ∉ streamsFor (closeStream st u dt h) u dt := by
  cases dt with
  | laptop =>
      exact streamsFor_update_filter_self { st with closed := h :: st.closed } u .laptop h
  | phone =>
      exact streamsFor_update_filter_self { st with closed := h :: st.closed } u .phone h

theorem sendText_response (st : SSEState) (u : String) (b : SendTextBody) (hu : u ≠ "") :
    (sendText st (some ⟨u, "phone"⟩) b).1 = .okJson "\x7b\"success\":true\x7d" := by
  simp only [sendText]
  rw [if_neg (by simp [hu])]

/-! ## The claims -/

/-- C1: a write failure on a transport-closed handle in the broadcast snapshot
is absorbed inside the relay: every still-open handle of the snapshot is
delivered to, a closed handle receives nothing, a handle whose close event has
been processed is gone from the bucket so later broadcasts never target it,
and the sender of /send-text gets a success response no matter which
recipients failed. -/
theorem broadcast_absorbs_recipient_failures (st : SSEState) (u : String) (dt : DeviceType)
    (e : EventData) :
    (∀ h ∈ streamsFor st u dt, h ∉ st.closed →
        (h, sseMessage e) ∈ (broadcastToDeviceType st u dt e).written) ∧
    (∀ hf ∈ st.closed, ∀ pr ∈ (broadcastToDeviceType st u dt e).written,
        pr ∈ st.written ∨ pr.1 ≠ hf) ∧
    (∀ hf, hf ∉ streamsFor (closeStream st u dt hf) u dt) ∧
    (∀ b : SendTextBody, u ≠ "" →
        (sendText st (some ⟨u, "phone"⟩) b).1 = .okJson "\x7b\"success\":true\x7d") := by
  refine ⟨fun h hmem hopen => broadcast_written_of_mem st u dt e h hmem hopen,
    fun hf hcl pr hpr => ?_,
    fun hf => streamsFor_closeStream_self st u dt hf,
    fun b hu => sendText_response st u b hu⟩
  rcases broadcast_written_sub st u dt e pr hpr with hold | ⟨_, _, hopen⟩
  · exact Or.inl hold
  · exact Or.inr fun hEq => hopen (hEq ▸ hcl)

/-- C6: one broadcast writes only to the handles of the (username, role)
bucket it targets; any handle outside that bucket — other role, other user,
or not registered at all — receives nothing from it. -/
theorem broadcast_frame (st : SSEState) (u : String) (dt : DeviceType) (e : EventData) :
    (∀ pr ∈ (broadcastToDeviceType st u dt e).written,
        pr ∈ st.written ∨ (pr.1 ∈ streamsFor st u dt ∧ pr.2 = sseMessage e)) ∧
    (∀ h, h ∉ streamsFor st u dt → ∀ l,
        ((h, l) ∈ (broadcastToDeviceType st u dt e).written ↔ (h, l) ∈ st.written)) := by
  constructor
  · intro pr hpr
    rcases broadcast_written_sub st u dt e pr hpr with hold | ⟨hmem, hline, _⟩
    · exact Or.inl hold
    · exact Or.inr ⟨hmem, hline⟩
  · intro h hout l
    constructor
    · intro hpr
      rcases broadcast_written_sub st u dt e (h, l) hpr with hold | ⟨hmem, _, _⟩
      · exact hold
      · exact absurd hmem hout
    · exact fun hold => broadcast_written_superset st u dt e (h, l) hold

/-- C7: in every state reachable by any sequence of login, stream-open and
stream-close operations, every handle sits in at most one role-bucket of at
most one username, and at most once in that bucket. -/
theorem registry_handles_unique (ops : List Op) :
    (registeredHandles (execOps ops).connections).Nodup :=
  (registryInv_execOps ops).1

/-- C9: with no open streams for (u, r) — no record at all, or an empty
bucket — streamsFor returns the empty collection and broadcast succeeds as
the identity: nothing written, registry untouched. -/
theorem broadcast_no_streams (st : SSEState) (u : String) (dt : DeviceType) (e : EventData)
    (hempty : lookupRecord st.connections u = none ∨ streamsFor st u dt = []) :
    streamsFor st u dt = [] ∧ broadcastToDeviceType st u dt e = st := by
  have hsf : streamsFor st u dt = [] := by
    rcases hempty with hnone | hemp
    · unfold streamsFor
      rw [hnone]
    · exact hemp
  refine ⟨hsf, ?_⟩
  unfold streamsFor at hsf
  unfold broadcastToDeviceType
  cases hlk : lookupRecord st.connections u with
  | none => rfl
  | some r =>
      rw [hlk] at hsf
      have hb : r.bucket dt = [] := hsf
      show List.foldl (fun s h => writeToHandle s h (sseMessage e)) st (r.bucket dt) = st
      rw [hb]
      rfl

/-- C9 witness: a user with a record whose buckets are empty. -/
theorem broadcast_no_streams_witness :
    streamsFor ⟨[("bob", ⟨[], []⟩)], [], [], []⟩ "bob" DeviceType.laptop = [] ∧
      broadcastToDeviceType ⟨[("bob", ⟨[], []⟩)], [], [], []⟩ "bob" DeviceType.laptop
        ⟨"text", some "x"⟩ = ⟨[("bob", ⟨[], []⟩)], [], [], []⟩ :=
  broadcast_no_streams ⟨[("bob", ⟨[], []⟩)], [], [], []⟩ "bob" DeviceType.laptop
    ⟨"text", some "x"⟩ (Or.inr (by rfl))

/-- C10: a successful login by a username that already has a record leaves
the whole registry — in particular both role-buckets, hence every open
stream — exactly as it was: the record is only initialized when absent. -/
theorem login_preserves_existing_record (st : SSEState) (u : String) (r : ConnRecord)
    (hr : lookupRecord st.connections u = some r) :
    loginInit st u = st ∧
      ∀ dt, streamsFor (loginInit st u) u dt = streamsFor st u dt := by
  have h1 : loginInit st u = st := by
    unfold loginInit
    rw [hr]
  exact ⟨h1, fun dt => by rw [h1]⟩

/-- C8: the close-time unregister filters by handle identity: it removes the
handle from its (username, role) bucket for all subsequent streamsFor reads,
leaves every other handle of the bucket in place, is a no-op (not an error)
when the handle is already absent, and running it twice equals running it
once — for both the laptop and the phone close handlers. -/
theorem unregister_removes_and_idempotent (st : SSEState) (u : String) (h : Nat) :
    (h ∉ streamsFor (closeLaptop st u h) u .laptop ∧
      (∀ h2, h2 ≠ h →
        (h2 ∈ streamsFor (closeLaptop st u h) u .laptop ↔ h2 ∈ streamsFor st u .laptop)) ∧
      (h ∉ streamsFor st u .laptop → closeLaptop st u h = st) ∧
      closeLaptop (closeLaptop st u h) u h = closeLaptop st u h) ∧
    (h ∉ streamsFor (closePhone st u h) u .phone ∧
      (∀ h2, h2 ≠ h →
        (h2 ∈ streamsFor (closePhone st u h) u .phone ↔ h2 ∈ streamsFor st u .phone)) ∧
      (h ∉ streamsFor st u .phone → closePhone st u h = st) ∧
      closePhone (closePhone st u h) u h = closePhone st u h) := by
  refine ⟨⟨streamsFor_update_filter_self st u .laptop h,
      fun h2 hne => streamsFor_update_filter_other st u .laptop h h2 hne,
      fun habs => update_filter_of_absent st u .laptop h habs, ?_⟩,
    ⟨streamsFor_update_filter_self st u .phone h,
      fun h2 hne => streamsFor_update_filter_other st u .phone h h2 hne,
      fun habs => update_filter_of_absent st u .phone h habs, ?_⟩⟩
  · simp only [closeLaptop]
    rw [updateRecord_filter_idem]
  · simp only [closePhone]
    rw [updateRecord_filter_idem]

/-! ## Helpers for the send endpoints and stream open -/

theorem bucket_pushBucket_self (r : ConnRecord) (dt : DeviceType) (h : Nat) :
    (r.pushBucket dt h).bucket dt = r.bucket dt ++ [h] := by
  cases dt <;> rfl

theorem sendText_eq (st : SSEState) (u : String) (b : SendTextBody) (hu : u ≠ "") :
    sendText st (some ⟨u, "phone"⟩) b =
      (.okJson "\x7b\"success\":true\x7d",
        broadcastToDeviceType st u .laptop ⟨"text", b.text⟩) := by
  simp only [sendText]
  rw [if_neg (by simp [hu])]

theorem sendImage_eq (st : SSEState) (u img : String) (hu : u ≠ "") (himg : img ≠ "") :
    sendImage st (some ⟨u, "laptop"⟩) ⟨some img⟩ =
      (.okJson "\x7b\"success\":true,\"message\":\"Image sent successfully\"\x7d",
        broadcastToDeviceType st u .phone
          ⟨"image", some ("data:image/png;base64," ++ img)⟩) := by
  simp only [sendImage]
  rw [if_neg (by simp [hu]), if_neg himg]

theorem sendImage_missing (st : SSEState) (u : String) (b : SendImageBody) (hu : u ≠ "")
    (hb : b.base64Image = none ∨ b.base64Image = some "") :
    sendImage st (some ⟨u, "laptop"⟩) b =
      (.badRequest "No base64Image in the request body", st) := by
  simp only [sendImage]
  rw [if_neg (by simp [hu])]
  rcases hb with hb | hb <;> rw [hb]
  rfl

theorem sendText_response_cases (st : SSEState) (sess : Option Session) (b : SendTextBody) :
    (sendText st sess b).1 = .forbidden ∨
      (sendText st sess b).1 = .okJson "\x7b\"success\":true\x7d" := by
  cases sess with
  | none => exact Or.inl rfl
  | some s =>
      simp only [sendText]
      by_cases hc : s.username = "" ∨ s.deviceType ≠ "phone"
      · rw [if_pos hc]; exact Or.inl rfl
      · rw [if_neg hc]; exact Or.inr rfl

theorem sendImage_response_cases (st : SSEState) (sess : Option Session)
    (b : SendImageBody) :
    (sendImage st sess b).1 = .forbidden ∨
      (sendImage st sess b).1 = .badRequest "No base64Image in the request body" ∨
      (sendImage st sess b).1 =
        .okJson "\x7b\"success\":true,\"message\":\"Image sent successfully\"\x7d" := by
  cases sess with
  | none => exact Or.inl rfl
  | some s =>
      simp only [sendImage]
      by_cases hc : s.username = "" ∨ s.deviceType ≠ "laptop"
      · rw [if_pos hc]; exact Or.inl rfl
      · rw [if_neg hc]
        cases b.base64Image with
        | none => exact Or.inr (Or.inl rfl)
        | some img =>
            by_cases hi : img = ""
            · subst hi
              exact Or.inr (Or.inl rfl)
            · refine Or.inr (Or.inr ?_)
              show (if img = ""
                  then (Response.badRequest "No base64Image in the request body", st)
                  else (Response.okJson
                      "\x7b\"success\":true,\"message\":\"Image sent successfully\"\x7d",
                    broadcastToDeviceType st s.username .phone
                      ⟨"image", some ("data:image/png;base64," ++ img)⟩)).1 =
                Response.okJson
                  "\x7b\"success\":true,\"message\":\"Image sent successfully\"\x7d"
              rw [if_neg hi]

/-- C2 counterexample: at a fresh registry (no record for "alice"), an
authenticated laptop stream-open does not succeed and register — the handler
hits the absent record and fails with a generic server error, leaving the
state unchanged. -/
theorem sse_open_without_record_fails :
    sseLaptop ⟨[], [], [], []⟩ (some ⟨"alice", "laptop"⟩) 0 =
      (.serverError, ⟨[], [], [], []⟩) := by
  rfl

/-- C2 amended (the record is created lazily on login only, not on
stream-open): an authenticated laptop stream-open succeeds and registers the
handle exactly when the username already has a record; with no record the
handler throws — surfaced as a generic server error — and registers nothing;
login creates the record when absent. -/
theorem sse_open_requires_login_record (st : SSEState) (u : String) (h : Nat)
    (hu : u ≠ "") :
    (∀ r, lookupRecord st.connections u = some r →
        (sseLaptop st (some ⟨u, "laptop"⟩) h).1 = .streamOpened ∧
          h ∈ streamsFor (sseLaptop st (some ⟨u, "laptop"⟩) h).2 u .laptop) ∧
    (lookupRecord st.connections u = none →
        sseLaptop st (some ⟨u, "laptop"⟩) h = (.serverError, st)) ∧
    (lookupRecord (loginInit st u).connections u).isSome := by
  refine ⟨fun r hlk => ?_, fun hlk => ?_, ?_⟩
  · have hsucc : sseLaptop st (some ⟨u, "laptop"⟩) h =
        (.streamOpened,
          { st with connections :=
              updateRecord st.connections u fun x => x.pushBucket .laptop h }) := by
      simp only [sseLaptop]
      rw [if_neg (by simp [hu]), hlk]
    rw [hsucc]
    refine ⟨rfl, ?_⟩
    show h ∈ streamsFor
      { st with connections := updateRecord st.connections u fun x => x.pushBucket .laptop h }
      u .laptop
    rw [streamsFor_mk, lookupRecord_updateRecord_self, hlk]
    show h ∈ (r.pushBucket .laptop h).bucket .laptop
    rw [bucket_pushBucket_self]
    exact List.mem_append_right _ (List.mem_singleton.mpr rfl)
  · simp only [sseLaptop]
    rw [if_neg (by simp [hu]), hlk]
  · unfold loginInit
    cases hlk : lookupRecord st.connections u with
    | some r =>
        rw [hlk]
        rfl
    | none =>
        show (lookupRecord (st.connections ++ [(u, ⟨[], []⟩)]) u).isSome
        rw [lookupRecord_append_of_none st.connections _ u hlk]
        simp [lookupRecord]

/-- C2 amended witness: a logged-in user with an (empty) record opens a
laptop stream successfully; login had created the record. -/
theorem sse_open_requires_login_record_witness :
    (∀ r, lookupRecord (⟨[("dave", ⟨[], []⟩)], [], [], []⟩ : SSEState).connections "dave" =
          some r →
        (sseLaptop ⟨[("dave", ⟨[], []⟩)], [], [], []⟩ (some ⟨"dave", "laptop"⟩) 7).1 =
            .streamOpened ∧
          7 ∈ streamsFor
              (sseLaptop ⟨[("dave", ⟨[], []⟩)], [], [], []⟩ (some ⟨"dave", "laptop"⟩) 7).2
              "dave" .laptop) ∧
    (lookupRecord (⟨[("dave", ⟨[], []⟩)], [], [], []⟩ : SSEState).connections "dave" = none →
        sseLaptop ⟨[("dave", ⟨[], []⟩)], [], [], []⟩ (some ⟨"dave", "laptop"⟩) 7 =
          (.serverError, ⟨[("dave", ⟨[], []⟩)], [], [], []⟩)) ∧
    (lookupRecord (loginInit ⟨[("dave", ⟨[], []⟩)], [], [], []⟩ "dave").connections
        "dave").isSome :=
  sse_open_requires_login_record ⟨[("dave", ⟨[], []⟩)], [], [], []⟩ "dave" 7 (by decide)

/-- C3 counterexample: with one open laptop handle for "alice", a /send-text
request by a phone-role alice session whose JSON body has no text field is
not rejected as a bad request: it is accepted with success, and an event
(with its data field absent) is still broadcast to the laptop handle. -/
theorem send_text_missing_payload_accepted :
    sendText ⟨[("alice", ⟨[1], []⟩)], [], [], [1]⟩ (some ⟨"alice", "phone"⟩) ⟨none⟩ =
      (.okJson "\x7b\"success\":true\x7d",
        ⟨[("alice", ⟨[1], []⟩)], [], [(1, "data: \x7b\"type\":\"text\"\x7d\n\n")], [1]⟩) := by
  rfl

/-- C3 amended: /send-image rejects a missing (or empty) base64Image with a
bad request and broadcasts nothing, but /send-text performs no payload
validation — a body with no text field is accepted and broadcast as is; the
user-visible outcomes of both send endpoints are limited to forbidden, bad
request, or the success response. -/
theorem send_payload_validation (st : SSEState) (u : String) (hu : u ≠ "") :
    (∀ b : SendImageBody, b.base64Image = none ∨ b.base64Image = some "" →
        sendImage st (some ⟨u, "laptop"⟩) b =
          (.badRequest "No base64Image in the request body", st)) ∧
    (∀ b : SendTextBody,
        sendText st (some ⟨u, "phone"⟩) b =
          (.okJson "\x7b\"success\":true\x7d",
            broadcastToDeviceType st u .laptop ⟨"text", b.text⟩)) ∧
    (∀ (sess : Option Session) (b : SendTextBody),
        (sendText st sess b).1 ≠ .serverError) ∧
    (∀ (sess : Option Session) (b : SendImageBody),
        (sendImage st sess b).1 ≠ .serverError) := by
  refine ⟨fun b hb => sendImage_missing st u b hu hb,
    fun b => sendText_eq st u b hu, fun sess b => ?_, fun sess b => ?_⟩
  · rcases sendText_response_cases st sess b with hr | hr <;> rw [hr] <;> intro hx <;> cases hx
  · rcases sendImage_response_cases st sess b with hr | hr | hr <;> rw [hr] <;>
      intro hx <;> cases hx

/-- C3 amended witness at a concrete state: "erin" has one laptop handle. -/
theorem send_payload_validation_witness :
    (∀ b : SendImageBody, b.base64Image = none ∨ b.base64Image = some "" →
        sendImage ⟨[("erin", ⟨[4], []⟩)], [], [], [4]⟩ (some ⟨"erin", "laptop"⟩) b =
          (.badRequest "No base64Image in the request body",
            ⟨[("erin", ⟨[4], []⟩)], [], [], [4]⟩)) ∧
    (∀ b : SendTextBody,
        sendText ⟨[("erin", ⟨[4], []⟩)], [], [], [4]⟩ (some ⟨"erin", "phone"⟩) b =
          (.okJson "\x7b\"success\":true\x7d",
            broadcastToDeviceType ⟨[("erin", ⟨[4], []⟩)], [], [], [4]⟩ "erin" .laptop
              ⟨"text", b.text⟩)) ∧
    (∀ (sess : Option Session) (b : SendTextBody),
        (sendText ⟨[("erin", ⟨[4], []⟩)], [], [], [4]⟩ sess b).1 ≠ .serverError) ∧
    (∀ (sess : Option Session) (b : SendImageBody),
        (sendImage ⟨[("erin", ⟨[4], []⟩)], [], [], [4]⟩ sess b).1 ≠ .serverError) :=
  send_payload_validation ⟨[("erin", ⟨[4], []⟩)], [], [], [4]⟩ "erin" (by decide)

/-- C4 counterexample: /send-image with payload "abc" relays an event whose
data string is the data URI "data:image/png;base64,abc", not the request's
payload "abc" verbatim. -/
theorem send_image_payload_not_verbatim :
    (sendImage ⟨[("alice", ⟨[], [2]⟩)], [], [], [2]⟩ (some ⟨"alice", "laptop"⟩)
        ⟨some "abc"⟩).2.written =
      [(2, "data: \x7b\"type\":\"image\",\"data\":\"data:image/png;base64,abc\"\x7d\n\n")] ∧
    ("data:image/png;base64,abc" : String) ≠ "abc" := by
  exact ⟨rfl, by decide⟩

/-- C4 amended: the relayed event carries the request payload as its data
string with the type tag added, verbatim for /send-text, but for /send-image
wrapped into a data URI first: data = "data:image/png;base64," ++ base64Image;
no other transformation. -/
theorem relay_payload_tagging (st : SSEState) (u t img : String) (hu : u ≠ "")
    (himg : img ≠ "") :
    (∀ h ∈ streamsFor st u .laptop, h ∉ st.closed →
        (h, sseMessage ⟨"text", some t⟩) ∈
          (sendText st (some ⟨u, "phone"⟩) ⟨some t⟩).2.written) ∧
    (∀ h ∈ streamsFor st u .phone, h ∉ st.closed →
        (h, sseMessage ⟨"image", some ("data:image/png;base64," ++ img)⟩) ∈
          (sendImage st (some ⟨u, "laptop"⟩) ⟨some img⟩).2.written) := by
  constructor
  · intro h hmem hopen
    rw [sendText_eq st u ⟨some t⟩ hu]
    exact broadcast_written_of_mem st u .laptop ⟨"text", some t⟩ h hmem hopen
  · intro h hmem hopen
    rw [sendImage_eq st u img hu himg]
    exact broadcast_written_of_mem st u .phone
      ⟨"image", some ("data:image/png;base64," ++ img)⟩ h hmem hopen

/-- C4 amended witness: "frank" with one laptop and one phone handle. -/
theorem relay_payload_tagging_witness :
    (∀ h ∈ streamsFor ⟨[("frank", ⟨[8], [9]⟩)], [], [], [8, 9]⟩ "frank" .laptop,
        h ∉ (⟨[("frank", ⟨[8], [9]⟩)], [], [], [8, 9]⟩ : SSEState).closed →
        (h, sseMessage ⟨"text", some "t1"⟩) ∈
          (sendText ⟨[("frank", ⟨[8], [9]⟩)], [], [], [8, 9]⟩ (some ⟨"frank", "phone"⟩)
              ⟨some "t1"⟩).2.written) ∧
    (∀ h ∈ streamsFor ⟨[("frank", ⟨[8], [9]⟩)], [], [], [8, 9]⟩ "frank" .phone,
        h ∉ (⟨[("frank", ⟨[8], [9]⟩)], [], [], [8, 9]⟩ : SSEState).closed →
        (h, sseMessage ⟨"image", some ("data:image/png;base64," ++ "i1")⟩) ∈
          (sendImage ⟨[("frank", ⟨[8], [9]⟩)], [], [], [8, 9]⟩ (some ⟨"frank", "laptop"⟩)
              ⟨some "i1"⟩).2.written) :=
  relay_payload_tagging ⟨[("frank", ⟨[8], [9]⟩)], [], [], [8, 9]⟩ "frank" "t1" "i1"
    (by decide) (by decide)

/-- C5: with alice holding laptop handle H1 = 1 and phone handles H2 = 2,
H3 = 3, a /send-text by a phone-role alice session with text "hi" succeeds
and writes the serialized event exactly once, to H1 only; after H1 closes it
is out of the registry, and a second identical send succeeds while writing
to zero handles. -/
theorem alice_scenario :
    streamsFor c5Ready "alice" .laptop = [1] ∧
    streamsFor c5Ready "alice" .phone = [2, 3] ∧
    c5Send1.1 = .okJson "\x7b\"success\":true\x7d" ∧
    c5Send1.2.written = [(1, "data: \x7b\"type\":\"text\",\"data\":\"hi\"\x7d\n\n")] ∧
    streamsFor c5Closed "alice" .laptop = [] ∧
    c5Send2.1 = .okJson "\x7b\"success\":true\x7d" ∧
    c5Send2.2.written = c5Send1.2.written := by
  exact ⟨rfl, rfl, rfl, rfl, rfl, rfl, rfl⟩

/-- C10 witness: re-login of a user holding one laptop and one phone stream. -/
theorem login_preserves_existing_record_witness :
    loginInit ⟨[("carol", ⟨[5], [6]⟩)], [], [], [5, 6]⟩ "carol" =
        ⟨[("carol", ⟨[5], [6]⟩)], [], [], [5, 6]⟩ ∧
      ∀ dt, streamsFor (loginInit ⟨[("carol", ⟨[5], [6]⟩)], [], [], [5, 6]⟩ "carol")
          "carol" dt =
        streamsFor ⟨[("carol", ⟨[5], [6]⟩)], [], [], [5, 6]⟩ "carol" dt :=
  login_preserves_existing_record ⟨[("carol", ⟨[5], [6]⟩)], [], [], [5, 6]⟩ "carol"
    ⟨[5], [6]⟩ (by rfl)

end ServerBot
